import Mathlib

/-!
Verification of the harpichord-midi core against its specification.

The definitions below are a shallow embedding of the two core service
modules of the repository:

* `src/services/midiService.ts` (class `MidiManager`): MIDI output of
  chords and harp notes, per-device tracking of sounding chord notes,
  echo-lockout suppression of incoming messages.
* `src/services/audioEngine.ts` (class `AudioEngine`): lazy one-time
  graph initialization, tempo-synced delay, comb-bank reverb, chord
  voice management, harp pitch selection, and rhythm stop.

JS `number` values that the embedded code only ever combines with
field arithmetic (+, *, /) are modelled as `ℚ`; MIDI note numbers and
millisecond timestamps as `ℤ`/`ℕ`.  `Map` objects that the code reads
only through `get(k) || []` are modelled as total functions with `[]`
default.  Methods that perform I/O (`out.send`, `setTimeout`) are
modelled as returning the list of emitted / scheduled messages next to
the updated state, in emission order.
-/

namespace Harpichord

/-- Structure `ChordDefinition` from `src/types` (variant in `src/unnamed/part_000`):
root name, display label, semitone intervals, keyboard key, mode name. -/
structure ChordDefinition where
  root : String
  label : String
  intervals : List Int
  key : String
  modeName : String
deriving Repr, DecidableEq

/-- One 3-byte MIDI wire message as assembled by `MidiManager`:
`status` is the command/channel byte, `note` the (possibly transposed)
note number, `velocity` the third byte. -/
structure MidiMsg where
  status : Nat
  note : Int
  velocity : Nat
deriving Repr, DecidableEq

/-- The mutable state of the `MidiManager` singleton that the claims
touch: the ids of the connected outputs, the per-output record of
chord notes currently turned on (`activeChordNotes`, read in the code
only via `get(id) || []`), the registered listeners (as opaque ids),
and the echo-lockout deadline `lockoutUntil` in ms. -/
structure MidiState where
  outputs : List String
  activeChordNotes : String → List Int
  listeners : List Nat
  lockoutUntil : Int

/-- Constant `LOCKOUT_DURATION_MS = 35` from `midiService.ts`. -/
def LOCKOUT_DURATION_MS : Int := 35

/-- The `outputsToSend` selection shared by `sendChord` and
`sendHarpNote`: all outputs for `"all"`, the single matching output
when the id is connected, nothing otherwise
(`[this.outputs.get(outputId)].filter(Boolean)`). -/
def outputsToSend (st : MidiState) (outputId : String) : List String :=
  if outputId = "all" then st.outputs
  else if st.outputs.contains outputId then [outputId] else []

/-- Method `setLockout`: arm the echo lockout window from the current time. -/
def setLockout (st : MidiState) (now : Int) : MidiState :=
  { st with lockoutUntil := now + LOCKOUT_DURATION_MS }

/-- Method `broadcast`: an incoming message at time `now` is dropped while
`now < lockoutUntil`, otherwise handed to every registered listener
(`this.listeners.forEach(l => l(message, deviceId))`).  The result is
the list of listeners that receive the message, in delivery order. -/
def broadcast (st : MidiState) (now : Int) : List Nat :=
  if now < st.lockoutUntil then [] else st.listeners

/-- The notes a chord turns on in `sendChord`: `note = 48 + interval`
("C2 base"). -/
def chordNotes (c : ChordDefinition) : List Int :=
  c.intervals.map (fun i => 48 + i)

/-- Method `MidiManager.sendChord(chord, outputId, channel)` at time `now`.
Returns the updated state and the `(deviceId, message)` pairs sent, in
order: per target output, first a note-off (status `0x80 | (ch-1)`,
velocity 0) for each recorded active note, then — when `chord` is
non-null — a note-on (status `0x90 | (ch-1)`, velocity 100) per
interval, recording the new notes (or deleting the record for a null
chord).  The lockout is armed iff at least one output is targeted. -/
def sendChord (st : MidiState) (chord : Option ChordDefinition)
    (outputId : String) (channel : Nat) (now : Int) :
    MidiState × List (String × MidiMsg) :=
  if outputId = "none" then (st, [])
  else
    let outs := outputsToSend st outputId
    let st1 := if outs.isEmpty then st else setLockout st now
    let msgs := (outs.map (fun o =>
      ((st.activeChordNotes o).map
        (fun n => (o, MidiMsg.mk (Nat.lor 0x80 (channel - 1)) n 0))) ++
      (match chord with
       | some c => c.intervals.map
           (fun i => (o, MidiMsg.mk (Nat.lor 0x90 (channel - 1)) (48 + i) 100))
       | none => []))).flatten
    let notes' : String → List Int := fun o =>
      if outs.contains o then
        match chord with
        | some c => chordNotes c
        | none => []
      else st1.activeChordNotes o
    ({ st1 with activeChordNotes := notes' }, msgs)

/-- The note number computed in `sendHarpNote`:
`60 + (octave + harpOctave) * 12 + intervals[stringIndex % len] +
floor(stringIndex / len) * 12`. -/
def sendHarpNoteNumber (c : ChordDefinition) (stringIndex : Nat)
    (octave harpOctave : Int) : Int :=
  60 + (octave + harpOctave) * 12
    + c.intervals.getD (stringIndex % c.intervals.length) 0
    + ((stringIndex / c.intervals.length : Nat) : Int) * 12

/-- Method `MidiManager.sendHarpNote(chord, stringIndex, octave, harpOctave,
outputId, channel)` at time `now`.  Returns the updated state, the
immediately sent `(deviceId, message)` pairs (one note-on, velocity
110, per target output), and the `(deviceId, delayMs, message)`
triples scheduled via `setTimeout` (the matching note-off after a
fixed 250 ms per target output). -/
def sendHarpNote (st : MidiState) (chord : Option ChordDefinition)
    (stringIndex : Nat) (octave harpOctave : Int)
    (outputId : String) (channel : Nat) (now : Int) :
    MidiState × List (String × MidiMsg) × List (String × Int × MidiMsg) :=
  match chord with
  | none => (st, [], [])
  | some c =>
    if outputId = "none" then (st, [], [])
    else
      let outs := outputsToSend st outputId
      let st1 := if outs.isEmpty then st else setLockout st now
      let note := sendHarpNoteNumber c stringIndex octave harpOctave
      (st1,
       outs.map (fun o => (o, MidiMsg.mk (Nat.lor 0x90 (channel - 1)) note 110)),
       outs.map (fun o => (o, (250 : Int), MidiMsg.mk (Nat.lor 0x80 (channel - 1)) note 0)))

/-!
Embedding of `src/services/audioEngine.ts` (class `AudioEngine`).
-/

/-- The `DelayDivision` union type from `src/types`:
`'1/4' | '1/4D' | '1/4T' | '1/8' | '1/8D' | '1/8T' | '1/16' | '1/16D'
| '1/16T' | '1/3' | '1/5'`. -/
inductive DelayDivision
  | d14 | d14D | d14T | d18 | d18D | d18T | d116 | d116D | d116T | d13 | d15
deriving Repr, DecidableEq

/-- The fixed `divisions` lookup table inside `AudioEngine.updateDelay`
(the table covers every `DelayDivision` value with a non-zero entry,
so the `|| 0.5` fallback of the source is unreachable). -/
def divisionMultiplier : DelayDivision → ℚ
  | .d14  => 1    | .d14D  => 1.5   | .d14T  => 0.666
  | .d18  => 0.5  | .d18D  => 0.75  | .d18T  => 0.333
  | .d116 => 0.25 | .d116D => 0.375 | .d116T => 0.166
  | .d13  => 0.333 | .d15  => 0.2

/-- One chord voice (`ActiveOscillator`): the source stores the
oscillator/gain/filter node triple; the datum that identifies the
voice musically is its semitone value `interval + octaveShift * 12`
(the oscillator frequency is `440 * 2^((semitone - 21) / 12)`). -/
structure ChordVoice where
  semitone : Int
deriving Repr, DecidableEq

/-- A gain-release event produced by `stopChord` for one retired
voice: the voice, the `setTargetAtTime` ramp time constant in
seconds, and the delay in ms after which `osc.stop()` is scheduled. -/
structure RetireEvent where
  voice : ChordVoice
  rampTimeConst : ℚ
  stopDelayMs : ℚ
deriving Repr, DecidableEq

/-- The mutable state of the `AudioEngine` singleton that the claims
touch.  `ready` stands for "`this.ctx` and every graph node field is
non-null", which in the source is exactly "the `init` body has run";
`initPromise`/`nextPromiseId` model the memoized in-flight init
promise by an opaque id; `graphsBuilt` counts how many times the init
body constructed the audio graph. -/
structure AudioState where
  ready : Bool
  initPromise : Option Nat
  nextPromiseId : Nat
  graphsBuilt : Nat
  sustainValue : ℚ
  chordAttack : ℚ
  chordRelease : ℚ
  tempo : ℚ
  rhythmInterval : Option Nat
  octaveShift : Int
  harpOctaveShift : Int
  chordOscillators : List ChordVoice
  firstChordPlayed : Bool
  masterGainTarget : ℚ
  delayTimeL : ℚ
  delayTimeR : ℚ
  delayFeedbackGain : ℚ
  delayFilterFreq : ℚ
  reverbGains : List ℚ
  reverbFilterFreq : ℚ
  reverbPan : ℚ

/-- The field initializers of class `AudioEngine` (`ctx = null`,
`initPromise = null`, `sustainValue = 0.5`, `chordAttack = 0.05`,
`chordRelease = 0.2`, `tempo = 120`, `rhythmInterval = null`, shifts
0, empty voice list, `firstChordPlayed = false`); the graph-node
parameters do not exist before `init` (nodes are null), so their model
fields start at 0 behind `ready = false`. -/
def initialAudioState : AudioState :=
  { ready := false, initPromise := none, nextPromiseId := 0, graphsBuilt := 0,
    sustainValue := 0.5, chordAttack := 0.05, chordRelease := 0.2, tempo := 120,
    rhythmInterval := none, octaveShift := 0, harpOctaveShift := 0,
    chordOscillators := [], firstChordPlayed := false, masterGainTarget := 0,
    delayTimeL := 0, delayTimeR := 0, delayFeedbackGain := 0, delayFilterFreq := 0,
    reverbGains := [], reverbFilterFreq := 0, reverbPan := 0 }

/-- The body of `AudioEngine.init`'s async function: creates the
context and every node once and sets their initial parameter values
(`masterGain` muted at 0, `delayFeedback.gain = 0.4`,
`delayFilter.frequency = 5000`, eight reverb comb lines each with
`gain.value = 0.7`, `reverbFilter.frequency = 10000`; `createDelay`
lines start at `delayTime = 0`). -/
def buildGraph (s : AudioState) : AudioState :=
  { s with
    ready := true
    graphsBuilt := s.graphsBuilt + 1
    masterGainTarget := 0
    delayTimeL := 0
    delayTimeR := 0
    delayFeedbackGain := 0.4
    delayFilterFreq := 5000
    reverbGains := List.replicate 8 0.7
    reverbFilterFreq := 10000
    reverbPan := 0 }

/-- Method `AudioEngine.init`:
`if (this.initPromise) return this.initPromise;` then
`this.initPromise = (async () => { ... })(); return this.initPromise;`.
The promise is stored synchronously before control is yielded, so
every caller — also one arriving while initialization is in flight —
receives the stored promise; the construction itself is tied to the
one call that created the promise.  Returns the state and the id of
the promise handed to the caller. -/
def init (s : AudioState) : AudioState × Nat :=
  match s.initPromise with
  | some p => (s, p)
  | none =>
    let p := s.nextPromiseId
    (buildGraph { s with initPromise := some p, nextPromiseId := p + 1 }, p)

/-- Method `AudioEngine.updateDelay(div, fb, tone, spread)`: no-op unless the
delay nodes exist; otherwise targets
`delayTimeL = (60 / tempo) * divisions[div]`,
`delayTimeR = delayTimeL * (1 + spread * 0.05)`,
`delayFeedback.gain = fb * 0.85`,
`delayFilter.frequency = 100 + tone * 8000`. -/
def updateDelay (s : AudioState) (div : DelayDivision) (fb tone spread : ℚ) :
    AudioState :=
  if s.ready then
    let beatTime := 60 / s.tempo
    let time := beatTime * divisionMultiplier div
    { s with
      delayTimeL := time
      delayTimeR := time * (1 + spread * 0.05)
      delayFeedbackGain := fb * 0.85
      delayFilterFreq := 100 + tone * 8000 }
  else s

/-- Method `AudioEngine.updateReverb(size, damp, width, color)`: no-op unless
the reverb nodes exist; otherwise targets every comb line's feedback
gain at `0.4 + size * 0.5`, the damping filter at
`1000 + (1 - damp) * 15000`, and the panner at `(width - 0.5) * 2`
(`color` is unused in the source). -/
def updateReverb (s : AudioState) (size damp width color : ℚ) : AudioState :=
  if s.ready then
    { s with
      reverbGains := s.reverbGains.map (fun _ => 0.4 + size * 0.5)
      reverbFilterFreq := 1000 + (1 - damp) * 15000
      reverbPan := (width - 0.5) * 2 }
  else s

/-- Method `AudioEngine.stopChord(immediate)`: for every active voice, cancel
pending ramps, ramp the gain to 0 with time constant `0.01` if
immediate else `chordRelease`, and schedule `osc.stop()` after
`(immediate ? 0.05 : chordRelease * 5) * 1000` ms; then clear the
active list.  Works with a null context (`ctx?.currentTime || 0`). -/
def stopChord (s : AudioState) (immediate : Bool) :
    AudioState × List RetireEvent :=
  ({ s with chordOscillators := [] },
   s.chordOscillators.map (fun v =>
     { voice := v,
       rampTimeConst := if immediate then 0.01 else s.chordRelease,
       stopDelayMs := (if immediate then (0.05 : ℚ) else s.chordRelease * 5) * 1000 }))

/-- Method `AudioEngine.playChord(chord)`: no-op unless the context and chord
bus exist; otherwise first `stopChord()` (retiring every previous
voice with the non-immediate release), unmute the master gain on the
first chord ever, then create one voice per interval with semitone
`interval + octaveShift * 12` and push it onto the active list.
Returns the state and the retire events of the displaced voices. -/
def playChord (s : AudioState) (chord : ChordDefinition) :
    AudioState × List RetireEvent :=
  if s.ready then
    let r := stopChord s false
    let s1 := r.1
    let s2 := if s1.firstChordPlayed then s1
              else { s1 with masterGainTarget := 1, firstChordPlayed := true }
    ({ s2 with chordOscillators :=
        chord.intervals.map (fun i => ChordVoice.mk (i + s.octaveShift * 12)) },
     r.2)
  else (s, [])

/-- The pitch computed in `AudioEngine.playHarpNote`: with
`intervalIndex = index % intervals.length` and
`octaveOffset = floor(index / intervals.length)`, the voice's semitone
is `intervals[intervalIndex] + (octaveShift + harpOctaveShift) * 12 +
octaveOffset * 12` and its frequency `440 * 2^((semitone - 21)/12)`. -/
def harpSemitone (c : ChordDefinition) (index : Nat)
    (octaveShift harpOctaveShift : Int) : Int :=
  c.intervals.getD (index % c.intervals.length) 0
    + (octaveShift + harpOctaveShift) * 12
    + ((index / c.intervals.length : Nat) : Int) * 12

/-- The exponent of 2 in the harp voice's frequency
`440 * 2 ^ harpFreqExponent` (so a difference of exactly 1 in this
exponent is exactly a doubling of the frequency). -/
def harpFreqExponent (c : ChordDefinition) (index : Nat)
    (octaveShift harpOctaveShift : Int) : ℚ :=
  ((harpSemitone c index octaveShift harpOctaveShift : ℚ) - 21) / 12

/-- Method `AudioEngine.playHarpNote(chord, index)`: no-op (`none`) unless the
context and harp bus exist; otherwise a fire-and-forget pluck voice
whose pitch is `harpSemitone` and whose scheduled oscillator stop
fires after `sustainValue * 2500` ms. -/
def playHarpNote (s : AudioState) (c : ChordDefinition) (index : Nat) :
    Option (Int × ℚ) :=
  if s.ready then
    some (harpSemitone c index s.octaveShift s.harpOctaveShift,
          s.sustainValue * 2500)
  else none

/-- Method `AudioEngine.stopRhythm`: `if (this.rhythmInterval)
clearInterval(this.rhythmInterval); this.rhythmInterval = null;`.
Returns the state and the cancelled timer id, if any. -/
def stopRhythm (s : AudioState) : AudioState × Option Nat :=
  ({ s with rhythmInterval := none }, s.rhythmInterval)

/-- The C-major chord definition generated in `src/constants.tsx`
(root `C`, offset 0, intervals `[0, 4, 7]`, key row 0). -/
def cMajor : ChordDefinition :=
  { root := "C", label := "C", intervals := [0, 4, 7], key := "Y", modeName := "Major" }

/-- A sample connected-output device id. -/
def dev1 : String := "dev1"

/-- A bridge state with a single connected output, no recorded chord
notes, one registered listener and no armed lockout. -/
def oneOutputState : MidiState :=
  { outputs := [dev1], activeChordNotes := fun _ => [],
    listeners := [0], lockoutUntil := 0 }

/-- A ready audio-engine state: the result of the first `init` call on
a freshly constructed engine. -/
def readyAudioState : AudioState :=
  (init initialAudioState).1

/-!
Theorems for the claims.
-/

/-- C10: `sendChord` with `outputId = "none"`, or with an id that is
neither `"all"` nor a connected output, is a complete no-op: no bytes
are sent, and the state — `lockoutUntil` and the per-device
active-chord-notes map included — is returned unchanged. -/
theorem sendChord_none_noop (st : MidiState) (chord : Option ChordDefinition)
    (o : String) (ch : Nat) (now : Int)
    (h : o = "none" ∨ (o ≠ "all" ∧ o ∉ st.outputs)) :
    sendChord st chord o ch now = (st, []) := by
  rcases h with h | ⟨h1, h2⟩
  · simp [sendChord, h]
  · have houts : outputsToSend st o = [] := by
      simp [outputsToSend, h1, h2]
    by_cases hn : o = "none"
    · simp [sendChord, hn]
    · simp [sendChord, hn, houts]

/-- Witness for C10: concrete no-ops for the `"none"` selector and for
a disconnected id. -/
theorem sendChord_none_noop_witness :
    sendChord oneOutputState (some cMajor) "none" 1 1000 = (oneOutputState, [])
    ∧ sendChord oneOutputState (some cMajor) "ghost" 1 1000 = (oneOutputState, []) :=
  ⟨sendChord_none_noop oneOutputState (some cMajor) "none" 1 1000 (Or.inl rfl),
   sendChord_none_noop oneOutputState (some cMajor) "ghost" 1 1000
     (Or.inr ⟨by decide, by decide⟩)⟩

/-- C1 counterexample: the claim's concrete expectation is wrong on the
code.  Sending the C-major chord (intervals `[0, 4, 7]`) at channel 1
to the single connected output emits exactly 3 note-on messages with
status `0x90`, but their notes are `{48, 52, 55}` (`48 + interval`,
"C2 base") — no emitted message carries note 60, so the claimed note
set `{60, 64, 67}` does not occur. -/
theorem sendChord_base48_counterexample :
    (sendChord oneOutputState (some cMajor) dev1 1 1000).2.map (fun m => m.2.note)
      = [48, 52, 55]
    ∧ (sendChord oneOutputState (some cMajor) dev1 1 1000).2.map (fun m => m.2.status)
      = [0x90, 0x90, 0x90]
    ∧ ∀ m ∈ (sendChord oneOutputState (some cMajor) dev1 1 1000).2,
        m.2.note ≠ 60 ∧ m.2.note ≠ 64 ∧ m.2.note ≠ 67 := by
  decide

/-- Helper: one `sendChord` call addressed to a single connected
output `o` emits the note-offs for the recorded notes followed by the
note-ons of the chord (if any), updates the record for `o`, and keeps
the device table. -/
theorem sendChord_single (st : MidiState) (chord : Option ChordDefinition)
    (o : String) (ch : Nat) (now : Int)
    (ho : o ∈ st.outputs) (hn : o ≠ "none") (ha : o ≠ "all") :
    (sendChord st chord o ch now).2
      = (st.activeChordNotes o).map (fun n => (o, MidiMsg.mk (Nat.lor 0x80 (ch - 1)) n 0))
        ++ chord.elim [] (fun c => c.intervals.map
            (fun i => (o, MidiMsg.mk (Nat.lor 0x90 (ch - 1)) (48 + i) 100)))
    ∧ (sendChord st chord o ch now).1.activeChordNotes o = chord.elim [] chordNotes
    ∧ (sendChord st chord o ch now).1.outputs = st.outputs := by
  have houts : outputsToSend st o = [o] := by simp [outputsToSend, ha, ho]
  cases chord <;> refine ⟨?_, ?_, ?_⟩ <;> simp [sendChord, hn, houts, setLockout]

/-- C1 (amended): for every `sendChord` on channel `ch` to a connected
output `o`, the bridge first emits a note-off (status `0x80|(ch-1)`,
velocity 0) for exactly the notes recorded for that device, then one
note-on (status `0x90|(ch-1)`, velocity 100) per interval with note
`48 + interval`, and records those notes; the next
`sendChord(null, ...)` emits exactly the matching note-offs and no
other messages, clearing the record. -/
theorem sendChord_roundtrip (st : MidiState) (c : ChordDefinition) (o : String)
    (ch : Nat) (now t2 : Int)
    (ho : o ∈ st.outputs) (hn : o ≠ "none") (ha : o ≠ "all") :
    (sendChord st (some c) o ch now).2
      = (st.activeChordNotes o).map (fun n => (o, MidiMsg.mk (Nat.lor 0x80 (ch - 1)) n 0))
        ++ c.intervals.map (fun i => (o, MidiMsg.mk (Nat.lor 0x90 (ch - 1)) (48 + i) 100))
    ∧ (sendChord st (some c) o ch now).1.activeChordNotes o = chordNotes c
    ∧ (sendChord (sendChord st (some c) o ch now).1 none o ch t2).2
      = (chordNotes c).map (fun n => (o, MidiMsg.mk (Nat.lor 0x80 (ch - 1)) n 0))
    ∧ (sendChord (sendChord st (some c) o ch now).1 none o ch t2).1.activeChordNotes o
      = [] := by
  have hA := sendChord_single st (some c) o ch now ho hn ha
  have ho2 : o ∈ (sendChord st (some c) o ch now).1.outputs := by
    rw [hA.2.2]; exact ho
  have hB := sendChord_single (sendChord st (some c) o ch now).1 none o ch t2 ho2 hn ha
  refine ⟨?_, ?_, ?_, ?_⟩
  · simpa using hA.1
  · simpa using hA.2.1
  · rw [hB.1]
    simp [hA.2.1]
  · simpa using hB.2.1

/-- Witness for C1: the concrete round trip at channel 1 with C major —
3 note-ons `0x90` on notes 48/52/55, then exactly the 3 matching
note-offs `0x80` with velocity 0, and an empty record afterwards. -/
theorem sendChord_roundtrip_witness :
    (sendChord oneOutputState (some cMajor) dev1 1 1000).2
      = [(dev1, MidiMsg.mk 0x90 48 100), (dev1, MidiMsg.mk 0x90 52 100),
         (dev1, MidiMsg.mk 0x90 55 100)]
    ∧ (sendChord oneOutputState (some cMajor) dev1 1 1000).1.activeChordNotes dev1
      = [48, 52, 55]
    ∧ (sendChord (sendChord oneOutputState (some cMajor) dev1 1 1000).1 none dev1 1 2000).2
      = [(dev1, MidiMsg.mk 0x80 48 0), (dev1, MidiMsg.mk 0x80 52 0),
         (dev1, MidiMsg.mk 0x80 55 0)]
    ∧ (sendChord (sendChord oneOutputState (some cMajor) dev1 1 1000).1
        none dev1 1 2000).1.activeChordNotes dev1 = [] := by
  have h := sendChord_roundtrip oneOutputState cMajor dev1 1 1000 2000
    (by decide) (by decide) (by decide)
  revert h
  decide

/-- C2: a send that targets at least one output (`sendChord` and
`sendHarpNote` alike) arms the lockout to `now + 35` ms and leaves the
listener registry unchanged; an incoming message strictly inside the
window reaches no registered listener, and a message at or after the
window's end reaches every registered listener exactly once. -/
theorem lockout_suppression (st : MidiState) (chord : Option ChordDefinition)
    (c : ChordDefinition) (i : Nat) (oct hoct : Int)
    (o : String) (ch : Nat) (now t : Int)
    (hn : o ≠ "none") (ht : outputsToSend st o ≠ []) :
    (sendChord st chord o ch now).1.lockoutUntil = now + 35
    ∧ (sendChord st chord o ch now).1.listeners = st.listeners
    ∧ (t < now + 35 → broadcast (sendChord st chord o ch now).1 t = [])
    ∧ (now + 35 ≤ t → broadcast (sendChord st chord o ch now).1 t = st.listeners)
    ∧ (now + 35 ≤ t → st.listeners.Nodup →
        ∀ l ∈ st.listeners, (broadcast (sendChord st chord o ch now).1 t).count l = 1)
    ∧ (sendHarpNote st (some c) i oct hoct o ch now).1.lockoutUntil = now + 35
    ∧ (t < now + 35 → broadcast (sendHarpNote st (some c) i oct hoct o ch now).1 t = [])
    ∧ (now + 35 ≤ t →
        broadcast (sendHarpNote st (some c) i oct hoct o ch now).1 t = st.listeners) := by
  have hE : (outputsToSend st o).isEmpty = false := by simp [List.isEmpty_iff, ht]
  have hc1 : (sendChord st chord o ch now).1.lockoutUntil = now + 35 := by
    simp [sendChord, hn, hE, setLockout, LOCKOUT_DURATION_MS]
  have hc2 : (sendChord st chord o ch now).1.listeners = st.listeners := by
    simp [sendChord, hn, hE, setLockout]
  have hh1 : (sendHarpNote st (some c) i oct hoct o ch now).1.lockoutUntil = now + 35 := by
    simp [sendHarpNote, hn, hE, setLockout, LOCKOUT_DURATION_MS]
  have hh2 : (sendHarpNote st (some c) i oct hoct o ch now).1.listeners = st.listeners := by
    simp [sendHarpNote, hn, hE, setLockout]
  refine ⟨hc1, hc2, ?_, ?_, ?_, hh1, ?_, ?_⟩
  · intro hlt; simp [broadcast, hc1, hc2, hlt]
  · intro hle; simp [broadcast, hc1, hc2, not_lt.mpr hle]
  · intro hle hnd l hl
    simp [broadcast, hc1, hc2, not_lt.mpr hle]
    exact List.count_eq_one_of_mem hnd hl
  · intro hlt; simp [broadcast, hh1, hh2, hlt]
  · intro hle; simp [broadcast, hh1, hh2, not_lt.mpr hle]

/-- Witness for C2: after a chord send at t = 1000 the lockout ends at
1035; an incoming message at 1034 reaches nobody, one at exactly 1035
reaches the single registered listener exactly once, and a harp-note
send suppresses in the same way. -/
theorem lockout_suppression_witness :
    broadcast (sendChord oneOutputState (some cMajor) dev1 1 1000).1 1034 = []
    ∧ broadcast (sendChord oneOutputState (some cMajor) dev1 1 1000).1 1035 = [0]
    ∧ (broadcast (sendChord oneOutputState (some cMajor) dev1 1 1000).1 1035).count 0 = 1
    ∧ broadcast (sendHarpNote oneOutputState (some cMajor) 0 0 (-1) dev1 1 1000).1 1034
      = [] := by
  have hA := lockout_suppression oneOutputState (some cMajor) cMajor 0 0 (-1) dev1 1 1000 1034
    (by decide) (by decide)
  have hB := lockout_suppression oneOutputState (some cMajor) cMajor 0 0 (-1) dev1 1 1000 1035
    (by decide) (by decide)
  refine ⟨hA.2.2.1 (by norm_num), ?_, ?_, hA.2.2.2.2.2.2.1 (by norm_num)⟩
  · have h := hB.2.2.2.1 (by norm_num)
    simpa [oneOutputState] using h
  · exact hB.2.2.2.2.1 (by norm_num) (by decide) 0 (by decide)

/-- C3: with the delay nodes present, `updateDelay` targets the left
delay line at `(60 / tempo) * divisionMultiplier div` seconds
regardless of the feedback/tone/spread arguments, and for every
division the delay time at tempo 60 is exactly twice the delay time at
tempo 120. -/
theorem updateDelay_time (s : AudioState) (div : DelayDivision) (fb tone spread : ℚ)
    (hr : s.ready = true) (ht : 0 < s.tempo) :
    (updateDelay s div fb tone spread).delayTimeL
      = 60 / s.tempo * divisionMultiplier div
    ∧ (updateDelay { s with tempo := 60 } div fb tone spread).delayTimeL
      = 2 * (updateDelay { s with tempo := 120 } div fb tone spread).delayTimeL := by
  constructor
  · simp [updateDelay, hr]
  · simp [updateDelay, hr]; ring

/-- Witness for C3: the spec's scenario — tempo 120, division `1/8`
gives 0.25 s — and the tempo-60 doubling at that division. -/
theorem updateDelay_time_witness :
    (updateDelay readyAudioState .d18 0.4 0.5 0.3).delayTimeL = 1 / 4
    ∧ (updateDelay { readyAudioState with tempo := 60 } .d18 0.4 0.5 0.3).delayTimeL
      = 2 * (updateDelay { readyAudioState with tempo := 120 } .d18 0.4 0.5 0.3).delayTimeL := by
  have h := updateDelay_time readyAudioState .d18 0.4 0.5 0.3 rfl
    (by norm_num [readyAudioState, init, initialAudioState, buildGraph])
  refine ⟨?_, h.2⟩
  rw [h.1]
  norm_num [readyAudioState, init, initialAudioState, buildGraph, divisionMultiplier]

/-- C4 counterexample: `updateDelay` applies `fb * 0.85` with no clamp,
so a feedback argument of 1.2 — at or above the declared `0..1`
ceiling — drives the applied delay feedback gain to 1.02, reaching
and exceeding unity, contrary to the claim. -/
theorem feedback_gain_counterexample :
    (1 : ℚ) ≤ 1.2
    ∧ (updateDelay readyAudioState .d18 1.2 0.5 0.3).delayFeedbackGain = 1.02
    ∧ ¬ (updateDelay readyAudioState .d18 1.2 0.5 0.3).delayFeedbackGain < 1 := by
  norm_num [updateDelay, readyAudioState, init, initialAudioState, buildGraph]

/-- C4 (amended): the code scales rather than clamps — the applied
delay feedback gain is `fb * 0.85` and each reverb line's gain is
`0.4 + size * 0.5` — so for arguments within the declared `0..1`
range (which the UI's knobs enforce) every applied feedback gain stays
strictly below unity: at most 0.85 for the delay loop and at most 0.9
for each reverb comb line. -/
theorem feedback_gain_below_unity (s : AudioState) (div : DelayDivision)
    (fb tone spread size damp width color : ℚ)
    (hr : s.ready = true) (hfb : fb ≤ 1) (hsize : size ≤ 1) :
    (updateDelay s div fb tone spread).delayFeedbackGain < 1
    ∧ ∀ g ∈ (updateReverb s size damp width color).reverbGains, g < 1 := by
  constructor
  · simp [updateDelay, hr]
    nlinarith
  · intro g hg
    simp [updateReverb, hr, List.mem_map] at hg
    obtain ⟨a, ha, rfl⟩ := hg
    nlinarith

/-- Witness for C4: at the ceiling itself (`fb = 1`, `size = 1`) the
applied gains stay below unity. -/
theorem feedback_gain_below_unity_witness :
    (updateDelay readyAudioState .d18 1 0.5 0.3).delayFeedbackGain < 1
    ∧ ∀ g ∈ (updateReverb readyAudioState 1 0.3 0.5 0.2).reverbGains, g < 1 :=
  feedback_gain_below_unity readyAudioState .d18 1 0.5 0.3 1 0.3 0.5 0.2 rfl
    (by norm_num) (by norm_num)

/-- C5: with the graph ready, `playChord` retires every previously
sounding chord voice — each gets a gain ramp toward zero (time
constant `chordRelease`) and a scheduled oscillator stop — emptying
the old list, and installs exactly one new voice per interval; and
`stopChord(immediate := true)` right afterwards empties the active
list, scheduling each chord voice's oscillator stop 50 ms out (the
immediate release window). -/
theorem playChord_voice_lifecycle (s : AudioState) (c : ChordDefinition)
    (hr : s.ready = true) (hne : c.intervals ≠ []) :
    (playChord s c).2 = s.chordOscillators.map
        (fun v => RetireEvent.mk v s.chordRelease (s.chordRelease * 5 * 1000))
    ∧ (playChord s c).1.chordOscillators
      = c.intervals.map (fun i => ChordVoice.mk (i + s.octaveShift * 12))
    ∧ (playChord s c).1.chordOscillators.length = c.intervals.length
    ∧ (stopChord (playChord s c).1 true).1.chordOscillators = []
    ∧ (stopChord (playChord s c).1 true).2
      = (playChord s c).1.chordOscillators.map (fun v => RetireEvent.mk v 0.01 50) := by
  have h50 : ((0.05 : ℚ)) * 1000 = 50 := by norm_num
  by_cases hf : s.firstChordPlayed <;>
    refine ⟨?_, ?_, ?_, ?_, ?_⟩ <;>
      simp [playChord, stopChord, hr, hf, h50]

/-- Witness for C5: playing C major on a fresh ready engine creates 3
voices and no retire events; the immediate stop empties the list and
schedules all 3 oscillator stops at 50 ms. -/
theorem playChord_voice_lifecycle_witness :
    (playChord readyAudioState cMajor).2 = []
    ∧ (playChord readyAudioState cMajor).1.chordOscillators
      = [ChordVoice.mk 0, ChordVoice.mk 4, ChordVoice.mk 7]
    ∧ (playChord readyAudioState cMajor).1.chordOscillators.length = 3
    ∧ (stopChord (playChord readyAudioState cMajor).1 true).1.chordOscillators = []
    ∧ (stopChord (playChord readyAudioState cMajor).1 true).2
      = [RetireEvent.mk (ChordVoice.mk 0) 0.01 50, RetireEvent.mk (ChordVoice.mk 4) 0.01 50,
         RetireEvent.mk (ChordVoice.mk 7) 0.01 50] := by
  have h := playChord_voice_lifecycle readyAudioState cMajor rfl (by decide)
  obtain ⟨h1, h2, h3, h4, h5⟩ := h
  refine ⟨?_, ?_, ?_, h4, ?_⟩
  · rw [h1]
    simp [readyAudioState, init, initialAudioState, buildGraph]
  · rw [h2]
    simp [readyAudioState, init, initialAudioState, buildGraph, cMajor]
  · rw [h3]
    decide
  · rw [h5, h2]
    simp [readyAudioState, init, initialAudioState, buildGraph, cMajor]

/-- C6: harp pitch selection uses `intervalIndex = i % intervalCount`
and `octaveOffset = i / intervalCount`, so advancing the string index
by one full interval cycle raises the selected pitch by exactly 12
semitones: the audio voice's semitone goes up 12 (its frequency
`440 * 2 ^ harpFreqExponent` doubles, the exponent rising by exactly
1) and the MIDI note of `sendHarpNote` is exactly 12 higher. -/
theorem harp_octave_wrap (c : ChordDefinition) (i : Nat) (oS hOS oct hoct : Int)
    (h : 0 < c.intervals.length) :
    harpSemitone c (i + c.intervals.length) oS hOS = harpSemitone c i oS hOS + 12
    ∧ harpFreqExponent c (i + c.intervals.length) oS hOS
      = harpFreqExponent c i oS hOS + 1
    ∧ sendHarpNoteNumber c (i + c.intervals.length) oct hoct
      = sendHarpNoteNumber c i oct hoct + 12
    ∧ ∀ s : AudioState, s.ready = true →
        playHarpNote s c (i + c.intervals.length)
          = (playHarpNote s c i).map (fun p => (p.1 + 12, p.2)) := by
  have hmod : (i + c.intervals.length) % c.intervals.length = i % c.intervals.length :=
    Nat.add_mod_right i _
  have hdiv : (i + c.intervals.length) / c.intervals.length = i / c.intervals.length + 1 :=
    Nat.add_div_right i h
  have h1 : ∀ a b : Int,
      harpSemitone c (i + c.intervals.length) a b = harpSemitone c i a b + 12 := by
    intro a b
    simp [harpSemitone, hmod, hdiv]
    ring
  refine ⟨h1 oS hOS, ?_, ?_, ?_⟩
  · simp [harpFreqExponent, h1 oS hOS]
    ring
  · simp [sendHarpNoteNumber, hmod, hdiv]
    ring
  · intro s hr
    simp [playHarpNote, hr, h1 s.octaveShift s.harpOctaveShift]

/-- Witness for C6: for C major (3 intervals), string 3 sounds exactly
one octave above string 0 — semitone and MIDI note up 12, frequency
exponent up 1 (frequency doubled) — both in the audio voice and in
`sendHarpNote`. -/
theorem harp_octave_wrap_witness :
    harpSemitone cMajor 3 0 (-1) = harpSemitone cMajor 0 0 (-1) + 12
    ∧ harpFreqExponent cMajor 3 0 (-1) = harpFreqExponent cMajor 0 0 (-1) + 1
    ∧ sendHarpNoteNumber cMajor 3 0 (-1) = sendHarpNoteNumber cMajor 0 0 (-1) + 12
    ∧ playHarpNote readyAudioState cMajor 3
      = (playHarpNote readyAudioState cMajor 0).map (fun p => (p.1 + 12, p.2)) := by
  have h := harp_octave_wrap cMajor 0 0 (-1) 0 (-1) (by decide)
  obtain ⟨h1, h2, h3, h4⟩ := h
  exact ⟨h1, h2, h3, h4 readyAudioState rfl⟩

/-- C7: `init` is idempotent and single-in-flight — when a promise is
already stored every call returns that same promise with the state
untouched (no second graph), and the first call builds the graph
exactly once, stores the promise it returns, and makes any subsequent
call return that same promise without further construction. -/
theorem init_idempotent (s : AudioState) :
    (∀ p, s.initPromise = some p → init s = (s, p))
    ∧ (s.initPromise = none →
        (init s).1.graphsBuilt = s.graphsBuilt + 1
        ∧ (init s).1.initPromise = some (init s).2
        ∧ init (init s).1 = ((init s).1, (init s).2)) := by
  constructor
  · intro p hp
    simp [init, hp]
  · intro h
    refine ⟨?_, ?_, ?_⟩ <;> simp [init, h, buildGraph]

/-- Witness for C7: on a fresh engine the first `init` builds the graph
once, and the second call returns the stored promise with no change. -/
theorem init_idempotent_witness :
    (init initialAudioState).1.graphsBuilt = initialAudioState.graphsBuilt + 1
    ∧ (init initialAudioState).1.initPromise = some (init initialAudioState).2
    ∧ init (init initialAudioState).1
      = ((init initialAudioState).1, (init initialAudioState).2) :=
  (init_idempotent initialAudioState).2 rfl

/-- C8: a `sendHarpNote` targeting connected outputs emits exactly one
note-on (velocity 110) per targeted output and schedules exactly one
matching note-off (same note, same channel nibble, velocity 0) after
the fixed 250 ms for each, and leaves the per-device
active-chord-notes tracking map entirely unchanged. -/
theorem sendHarpNote_messages (st : MidiState) (c : ChordDefinition) (i : Nat)
    (oct hoct : Int) (o : String) (ch : Nat) (now : Int)
    (hn : o ≠ "none") (ht : outputsToSend st o ≠ []) (hne : c.intervals ≠ []) :
    (sendHarpNote st (some c) i oct hoct o ch now).2.1
      = (outputsToSend st o).map (fun d =>
          (d, MidiMsg.mk (Nat.lor 0x90 (ch - 1)) (sendHarpNoteNumber c i oct hoct) 110))
    ∧ (sendHarpNote st (some c) i oct hoct o ch now).2.2
      = (outputsToSend st o).map (fun d =>
          (d, (250 : Int), MidiMsg.mk (Nat.lor 0x80 (ch - 1)) (sendHarpNoteNumber c i oct hoct) 0))
    ∧ (sendHarpNote st (some c) i oct hoct o ch now).2.1.length
      = (outputsToSend st o).length
    ∧ (sendHarpNote st (some c) i oct hoct o ch now).1.activeChordNotes
      = st.activeChordNotes := by
  have hE : (outputsToSend st o).isEmpty = false := by simp [List.isEmpty_iff, ht]
  refine ⟨?_, ?_, ?_, ?_⟩ <;> simp [sendHarpNote, hn, hE, setLockout]

/-- Witness for C8: harp string 2 over C major at octave 0, harp octave
-1, channel 2 — one note-on `0x91` on note 55, one scheduled note-off
`0x81` at 250 ms, tracking map untouched. -/
theorem sendHarpNote_messages_witness :
    (sendHarpNote oneOutputState (some cMajor) 2 0 (-1) dev1 2 1000).2.1
      = [(dev1, MidiMsg.mk 0x91 55 110)]
    ∧ (sendHarpNote oneOutputState (some cMajor) 2 0 (-1) dev1 2 1000).2.2
      = [(dev1, (250 : Int), MidiMsg.mk 0x81 55 0)]
    ∧ (sendHarpNote oneOutputState (some cMajor) 2 0 (-1) dev1 2 1000).2.1.length = 1
    ∧ (sendHarpNote oneOutputState (some cMajor) 2 0 (-1) dev1 2 1000).1.activeChordNotes
      = oneOutputState.activeChordNotes := by
  have h := sendHarpNote_messages oneOutputState cMajor 2 0 (-1) dev1 2 1000
    (by decide) (by decide) (by decide)
  refine ⟨?_, ?_, ?_, h.2.2.2⟩
  · rw [h.1]; decide
  · rw [h.2.1]; decide
  · rw [h.2.2.1]; decide

/-- C9: `stopChord` and `stopRhythm` are total and are no-ops when
there is nothing to stop — with no active chord voices `stopChord`
returns the state unchanged with no retire events (this covers the
never-initialized engine, whose voice list is empty and whose missing
context the source guards with `ctx?.currentTime || 0`), and with no
running timer `stopRhythm` returns the state unchanged cancelling
nothing. -/
theorem stop_noop (s : AudioState) (immediate : Bool)
    (hc : s.chordOscillators = []) (hrh : s.rhythmInterval = none) :
    stopChord s immediate = (s, []) ∧ stopRhythm s = (s, none) := by
  cases s
  simp_all [stopChord, stopRhythm]

/-- Witness for C9: both stops are no-ops on the fresh, never-started
engine state. -/
theorem stop_noop_witness :
    stopChord initialAudioState true = (initialAudioState, [])
    ∧ stopRhythm initialAudioState = (initialAudioState, none) :=
  stop_noop initialAudioState true rfl rfl

end Harpichord
